import Mathlib

/-!
Verification development for the mgrep session hooks
(src/plugins/mgrep/hooks/mgrep_watch.py and mgrep_watch_kill.py).

The two hooks are shallowly embedded as pure Lean functions.  Effectful
operating-system calls (os.kill, os.open, os.remove, open/read, Popen) are
modelled by explicit outcome parameters: every call site receives the outcome
the operating system would have produced there (success, or the member of the
OSError family that was raised).  The per-session filesystem footprint - the
pid file and the worker log file - is modelled as explicit state.  The debug
log (debug_log) is an advisory channel that only appends diagnostic text; it
is not part of the modelled state.  Strings are modelled over ASCII, matching
the data the hooks actually write and read.
-/

namespace Mgrep

/-! ### Python string and int primitives

Models of the Python operations the hooks use on pid-file content:
str.strip(), int(str), and str(int).  int() accepts an optional sign and
decimal digits with single underscores between digits, and strips surrounding
whitespace; modelled here over ASCII. -/

/-- The ASCII whitespace characters stripped by str.strip() and int(). -/
def isPySpace (c : Char) : Bool :=
  c = ' ' || c = '\t' || c = '\n' || c = '\r' || c = '\x0b' || c = '\x0c'

/-- Remove leading and trailing whitespace from a character list. -/
def trimChars (cs : List Char) : List Char :=
  ((cs.dropWhile isPySpace).reverse.dropWhile isPySpace).reverse

/-- Model of Python str.strip() (no arguments). -/
def pyStrip (s : String) : String :=
  String.mk (trimChars s.data)

/-- Numeric value of an ASCII decimal digit character. -/
def digitVal (c : Char) : Nat :=
  c.toNat - 48

/-- Digit scanner of Python int(): decimal digits with single underscores
allowed only between digits.  The Bool flag records whether the previous
character was a digit (so the string may end, or an underscore may follow). -/
def pyIntCore : List Char → Nat → Bool → Option Nat
  | [], acc, lastDigit => if lastDigit then some acc else none
  | c :: rest, acc, lastDigit =>
    if c.isDigit then pyIntCore rest (acc * 10 + digitVal c) true
    else if c = '_' && lastDigit then pyIntCore rest acc false
    else none

/-- Model of Python int(s) for a str argument: strip whitespace, optional
sign, then decimal digits (with single underscores between digits).
Returns none where Python raises ValueError. -/
def pyParseInt (s : String) : Option Int :=
  match trimChars s.data with
  | [] => none
  | c :: rest =>
    if c = '+' then (pyIntCore rest 0 false).map Int.ofNat
    else if c = '-' then (pyIntCore rest 0 false).map (fun n => -(Int.ofNat n))
    else (pyIntCore (c :: rest) 0 false).map Int.ofNat

/-- Model of int(f.read().strip()) as both hooks apply it to the pid-file
content: strip, then parse as a Python int. -/
def readPidStr (s : String) : Option Int :=
  pyParseInt (pyStrip s)

/-- The digit-accumulation step of int() parsing: one decimal shift. -/
def decStep (a : Nat) (c : Char) : Nat :=
  a * 10 + digitVal c

/-- The ASCII character of one decimal digit (str(int) building block). -/
def decDigit (d : Nat) : Char :=
  match d with
  | 0 => '0'
  | 1 => '1'
  | 2 => '2'
  | 3 => '3'
  | 4 => '4'
  | 5 => '5'
  | 6 => '6'
  | 7 => '7'
  | 8 => '8'
  | _ => '9'

/-- Accumulate the decimal digits of n (most significant first) onto acc. -/
def natToDecAux (n : Nat) (acc : List Char) : List Char :=
  if h : n = 0 then acc
  else natToDecAux (n / 10) (decDigit (n % 10) :: acc)
termination_by n
decreasing_by exact Nat.div_lt_self (Nat.pos_of_ne_zero h) (by omega)

/-- Decimal digit string of a natural number. -/
def natToDec (n : Nat) : List Char :=
  if n = 0 then ['0'] else natToDecAux n []

/-- Model of Python str(pid) for the nonnegative pid written by the start
hook (os.write(fd, str(process.pid).encode()), no trailing newline). -/
def pyStrOfNat (n : Nat) : String :=
  String.mk (natToDec n)

/-! ### Operating-system call outcomes

os.kill(pid, sig) either succeeds or raises a member of the OSError family;
the outcomes the hooks distinguish are modelled explicitly.
ProcessLookupError and PermissionError are both subclasses of OSError. -/

/-- Outcome of one os.kill(pid, 0) liveness probe. -/
inductive ProbeOutcome
  | ok
  | noSuchProcess
  | permissionDenied
  | otherOSError
deriving DecidableEq

/-- Outcome of sending a real signal with os.kill(pid, SIGTERM or SIGKILL). -/
inductive SigOutcome
  | delivered
  | noSuchProcess
  | permissionDenied
deriving DecidableEq

/-- Signal-sending events emitted by the termination sequence, in order. -/
inductive Event
  | sigterm
  | sigkill
deriving DecidableEq

/-- Embedding of is_process_running(pid), duplicated verbatim in
mgrep_watch.py (lines 44-50) and mgrep_watch_kill.py (lines 45-51):
    try: os.kill(pid, 0); return True
    except (OSError, ProcessLookupError): return False
Every OSError outcome - including PermissionError - is caught and yields
False; only a successful probe yields True. -/
def is_process_running (o : ProbeOutcome) : Bool :=
  match o with
  | .ok => true
  | .noSuchProcess => false
  | .permissionDenied => false
  | .otherOSError => false

/-- The hook input payload (read_hook_input): session_id and cwd fields of
the JSON object, each possibly absent.  A missing payload (empty stdin or a
JSON decode error) is modelled as none at the use sites. -/
structure Payload where
  session_id : Option String
  cwd : Option String
deriving DecidableEq

/-! ### mgrep_watch.py - the start hook

acquire_pid_file performs up to three exclusive creations, two removals and
one read; FsEnv records whether each of those call sites would raise an
OSError.  The pid file itself is Option String (none = absent, some c = file
with content c).  A removal of an absent file always raises FileNotFoundError
regardless of the flag; an exclusive creation on an absent file is taken to
succeed when its flag is true, and a failed creation leaves the state
unchanged (modelling EACCES-style failures). -/

/-- Outcomes of the filesystem call sites inside acquire_pid_file, in source
order: the open/read of the existing pid file, the os.remove of a stale file,
the retry os.open after it, and the os.remove plus os.open of the
invalid-pid-file handler. -/
structure FsEnv where
  readOk : Bool
  remove1Ok : Bool
  create2Ok : Bool
  remove2Ok : Bool
  create3Ok : Bool
deriving DecidableEq

/-- Result of acquire_pid_file: a file descriptor, or Python None. -/
inductive AcquireOut
  | fd
  | noAcquire
deriving DecidableEq

/-- The except (ValueError, OSError) handler of acquire_pid_file
(lines 81-90): try os.remove then exclusive os.open; on OSError return None.
os.remove raises FileNotFoundError when the file is already absent. -/
def invalidHandler (env : FsEnv) (fs : Option String) : AcquireOut × Option String :=
  if fs.isSome && env.remove2Ok then
    if env.create3Ok then (.fd, some "") else (.noAcquire, none)
  else (.noAcquire, fs)

/-- Embedding of acquire_pid_file (mgrep_watch.py lines 53-90).  probe gives
the outcome of the os.kill(pid, 0) issued by is_process_running for each pid.
The first exclusive creation succeeds whenever the file is absent; when the
file exists the FileExistsError branch reads and parses the recorded pid,
returns None if the process is running, and otherwise removes the stale file
and retries the creation, falling into the invalid-pid-file handler when any
of these raise ValueError or OSError. -/
def acquire_pid_file (env : FsEnv) (probe : Int → ProbeOutcome) (fs : Option String) :
    AcquireOut × Option String :=
  match fs with
  | none => (.fd, some "")
  | some content =>
    match (if env.readOk then readPidStr content else none) with
    | none => invalidHandler env (some content)
    | some pid =>
      if is_process_running (probe pid) then (.noAcquire, some content)
      else if env.remove1Ok then
        if env.create2Ok then (.fd, some "")
        else invalidHandler env none
      else invalidHandler env (some content)

/-- Embedding of cleanup_pid_file (mgrep_watch.py lines 93-100 and
mgrep_watch_kill.py lines 96-103): remove the pid file if it exists; an
OSError from the removal is logged and swallowed. -/
def cleanup_pid_file (removeOk : Bool) (fs : Option String) : Option String :=
  match fs with
  | none => none
  | some c => if removeOk then none else some c

/-- The structured output printed by the start hook main: the two input
error objects, the already-running advisory, the spawn-failure error, or the
success advisory. -/
inductive StartOut
  | errNoPayload
  | errNoSession
  | alreadyRunning
  | errSpawn
  | started (pid : Nat)
deriving DecidableEq

/-- Per-session filesystem footprint of the start hook: the pid file content
and whether the worker log file exists. -/
structure StartWorld where
  pidFile : Option String
  logFile : Bool
deriving DecidableEq

/-- Operating-system outcomes for one run of the start hook main: the
acquire call sites, the open(log_file, "w"), the subprocess.Popen, the
os.write of the pid, the spawned child pid, and the os.remove inside
cleanup_pid_file on the failure path. -/
structure StartEnv where
  fs : FsEnv
  probe : Int → ProbeOutcome
  logOpenOk : Bool
  spawnOk : Bool
  writeOk : Bool
  childPid : Nat
  cleanupRemoveOk : Bool

/-- Result of the start hook main: exit status, structured stdout, world. -/
structure StartResult where
  exitCode : Nat
  output : StartOut
  world : StartWorld
deriving DecidableEq

namespace MgrepWatch

/-- Embedding of main (mgrep_watch.py lines 103-193).  A missing or
undecodable payload and a missing or empty session_id print an error object
and return 1.  A None from acquire_pid_file is reported as the
already-running advisory with exit status 0.  Otherwise the hook opens the
log file, spawns the worker, and writes str(child pid) into the pid file; any
exception in that block closes the descriptors, removes the pid file via
cleanup_pid_file, prints an error object and returns 1.  The payload cwd
only selects the working directory handed to the worker and does not affect
the modelled state. -/
def main (env : StartEnv) (payload : Option Payload) (w : StartWorld) : StartResult :=
  match payload with
  | none => ⟨1, .errNoPayload, w⟩
  | some p =>
    match p.session_id with
    | none => ⟨1, .errNoSession, w⟩
    | some sid =>
      if sid = "" then ⟨1, .errNoSession, w⟩
      else
        match acquire_pid_file env.fs env.probe w.pidFile with
        | (.noAcquire, pf) => ⟨0, .alreadyRunning, ⟨pf, w.logFile⟩⟩
        | (.fd, pf) =>
          if env.logOpenOk = false then
            ⟨1, .errSpawn, ⟨cleanup_pid_file env.cleanupRemoveOk pf, w.logFile⟩⟩
          else if env.spawnOk = false then
            ⟨1, .errSpawn, ⟨cleanup_pid_file env.cleanupRemoveOk pf, true⟩⟩
          else if env.writeOk = false then
            ⟨1, .errSpawn, ⟨cleanup_pid_file env.cleanupRemoveOk pf, true⟩⟩
          else
            ⟨0, .started env.childPid, ⟨some (pyStrOfNat env.childPid), true⟩⟩

end MgrepWatch

/-! ### mgrep_watch_kill.py - the stop hook -/

/-- Operating-system outcomes for one terminate_process call: probe n is the
outcome of the n-th os.kill(pid, 0) issued (through is_process_running) for
the recorded pid, in call order; sigterm and sigkill are the outcomes of the
two real signals.  The except clause around the SIGKILL send only logs, so
sigkill never influences control flow. -/
structure TermEnv where
  probe : Nat → ProbeOutcome
  sigterm : SigOutcome
  sigkill : SigOutcome

/-- The wait loop of terminate_process (lines 77-82): up to `fuel` polls of
is_process_running starting at probe index i (the number of iterations the
3-second window admits at 100ms per sleep).  Returns whether the process was
seen gone within the window, and the next unused probe index. -/
def waitGraceful (probe : Nat → ProbeOutcome) : Nat → Nat → Bool × Nat
  | i, 0 => (false, i)
  | i, fuel + 1 =>
    if is_process_running (probe i) then waitGraceful probe (i + 1) fuel
    else (true, i + 1)

/-- Embedding of terminate_process (mgrep_watch_kill.py lines 54-93),
returning the Python result together with the ordered list of real signals
attempted.  Initial probe not running: return False with no signal.  SIGTERM
raising ProcessLookupError or PermissionError: return False.  Then the
graceful wait loop; on timeout, a further probe guards the SIGKILL send
(whose own failure is only logged), and the result is the negated outcome of
one final probe.  Model boundary: the probe and signal outcomes describe
signals addressed to the recorded worker or a process group other than that
of the hook itself; a recorded pid of 0, or a negative pid naming the group
of the hook itself, would direct the signal at the hook and kill it
mid-sequence, which this embedding does not represent. -/
def terminate_process (env : TermEnv) (polls : Nat) : Bool × List Event :=
  if is_process_running (env.probe 0) = false then (false, [])
  else
    match env.sigterm with
    | .noSuchProcess => (false, [.sigterm])
    | .permissionDenied => (false, [.sigterm])
    | .delivered =>
      let w := waitGraceful env.probe 1 polls
      if w.1 then (true, [.sigterm])
      else if is_process_running (env.probe w.2) then
        (!(is_process_running (env.probe (w.2 + 1))), [.sigterm, .sigkill])
      else
        (!(is_process_running (env.probe (w.2 + 1))), [.sigterm])

/-- Operating-system outcomes for one run of the stop hook main: the pid
file open/read, the termination call outcomes and poll budget, and the
os.remove calls for the pid file and the worker log file. -/
structure KillEnv where
  readOk : Bool
  term : TermEnv
  polls : Nat
  removePidOk : Bool
  removeLogOk : Bool

/-- Per-session filesystem footprint of the stop hook. -/
structure KillWorld where
  pidFile : Option String
  logFile : Bool
deriving DecidableEq

/-- Result of the stop hook main: exit status, the lines printed to stdout
(the stop hook never prints), the world, and the signals attempted. -/
structure KillResult where
  exitCode : Nat
  stdout : List String
  world : KillWorld
  events : List Event
deriving DecidableEq

namespace MgrepWatchKill

/-- Embedding of main (mgrep_watch_kill.py lines 106-159).  Missing payload,
missing or empty session_id, and an absent pid file all return 0 untouched.
An unreadable or unparseable pid file is removed and 0 returned.  Otherwise
terminate_process runs (its Bool result only feeds the debug log), the pid
file is removed via cleanup_pid_file, and the worker log file is removed if
present; every path returns exit status 0 and prints nothing. -/
def main (env : KillEnv) (payload : Option Payload) (w : KillWorld) : KillResult :=
  match payload with
  | none => ⟨0, [], w, []⟩
  | some p =>
    match p.session_id with
    | none => ⟨0, [], w, []⟩
    | some sid =>
      if sid = "" then ⟨0, [], w, []⟩
      else
        match w.pidFile with
        | none => ⟨0, [], w, []⟩
        | some content =>
          match (if env.readOk then readPidStr content else none) with
          | none => ⟨0, [], ⟨cleanup_pid_file env.removePidOk (some content), w.logFile⟩, []⟩
          | some _ =>
            let evs := (terminate_process env.term env.polls).2
            let pf := cleanup_pid_file env.removePidOk (some content)
            let lf := if w.logFile && env.removeLogOk then false else w.logFile
            ⟨0, [], ⟨pf, lf⟩, evs⟩

end MgrepWatchKill

/-! ### Helper lemmas -/

/-- Removing the pid file with a succeeding os.remove leaves no file. -/
theorem cleanup_pid_file_true (fs : Option String) : cleanup_pid_file true fs = none := by
  cases fs <;> rfl

/-- dropWhile is the identity on lists with no satisfying element. -/
theorem dropWhile_all_false {p : Char → Bool} (cs : List Char)
    (h : ∀ c ∈ cs, p c = false) : cs.dropWhile p = cs := by
  cases cs with
  | nil => rfl
  | cons c rest =>
    have hc := h c (by simp)
    simp [List.dropWhile, hc]

/-- trimChars is the identity on lists with no whitespace character. -/
theorem trimChars_of_no_space (cs : List Char)
    (h : ∀ c ∈ cs, isPySpace c = false) : trimChars cs = cs := by
  unfold trimChars
  rw [dropWhile_all_false cs h,
      dropWhile_all_false cs.reverse (fun c hc => h c (List.mem_reverse.mp hc)),
      List.reverse_reverse]

/-- Field extraction for the string constructor. -/
theorem data_mk (cs : List Char) : (String.mk cs).data = cs := rfl

/-- Each decimal digit character is an ASCII digit. -/
theorem decDigit_isDigit (d : Nat) : (decDigit d).isDigit = true := by
  unfold decDigit
  split <;> decide

/-- No decimal digit character is whitespace. -/
theorem decDigit_not_space (d : Nat) : isPySpace (decDigit d) = false := by
  unfold decDigit
  split <;> decide

/-- A decimal digit character is not the plus sign. -/
theorem decDigit_ne_plus (d : Nat) : decDigit d ≠ '+' := by
  unfold decDigit
  split <;> decide

/-- A decimal digit character is not the minus sign. -/
theorem decDigit_ne_dash (d : Nat) : decDigit d ≠ '-' := by
  unfold decDigit
  split <;> decide

/-- digitVal inverts decDigit on single digits. -/
theorem digitVal_decDigit (d : Nat) (h : d < 10) : digitVal (decDigit d) = d := by
  interval_cases d <;> decide

/-- One-step unfolding of natToDecAux at zero. -/
theorem natToDecAux_zero (acc : List Char) : natToDecAux 0 acc = acc := by
  rw [natToDecAux]
  simp

/-- One-step unfolding of natToDecAux at a nonzero argument. -/
theorem natToDecAux_eq (n : Nat) (acc : List Char) (h : n ≠ 0) :
    natToDecAux n acc = natToDecAux (n / 10) (decDigit (n % 10) :: acc) := by
  rw [natToDecAux]
  exact dif_neg h

/-- natToDecAux prepends the digit string of n to the accumulator. -/
theorem natToDecAux_append (n : Nat) : ∀ acc : List Char,
    natToDecAux n acc = natToDecAux n [] ++ acc := by
  induction n using Nat.strong_induction_on with
  | _ n ih =>
    intro acc
    by_cases h : n = 0
    · subst h
      rw [natToDecAux_zero, natToDecAux_zero]
      simp
    · have hlt : n / 10 < n := Nat.div_lt_self (Nat.pos_of_ne_zero h) (by omega)
      rw [natToDecAux_eq n acc h, natToDecAux_eq n [] h]
      rw [ih (n / 10) hlt (decDigit (n % 10) :: acc), ih (n / 10) hlt [decDigit (n % 10)]]
      simp

/-- Every character natToDecAux produces comes from the accumulator or is a
decimal digit character. -/
theorem natToDecAux_mem (n : Nat) : ∀ (acc : List Char) (c : Char),
    c ∈ natToDecAux n acc → c ∈ acc ∨ ∃ d, d < 10 ∧ c = decDigit d := by
  induction n using Nat.strong_induction_on with
  | _ n ih =>
    intro acc c hc
    by_cases h : n = 0
    · subst h
      rw [natToDecAux_zero] at hc
      exact Or.inl hc
    · have hlt : n / 10 < n := Nat.div_lt_self (Nat.pos_of_ne_zero h) (by omega)
      rw [natToDecAux_eq n acc h] at hc
      rcases ih (n / 10) hlt (decDigit (n % 10) :: acc) c hc with hmem | hd
      · rcases List.mem_cons.mp hmem with hceq | hmem2
        · exact Or.inr ⟨n % 10, Nat.mod_lt n (by omega), hceq⟩
        · exact Or.inl hmem2
      · exact Or.inr hd

/-- The digit string of a nonzero number is nonempty. -/
theorem natToDecAux_ne_nil (n : Nat) (h : n ≠ 0) : natToDecAux n [] ≠ [] := by
  rw [natToDecAux_eq n [] h, natToDecAux_append]
  simp

/-- Folding the digit-accumulation step over the digit string of n recovers
n, shifted under the accumulated prefix. -/
theorem foldl_natToDecAux (n : Nat) : ∀ a : Nat,
    (natToDecAux n []).foldl decStep a = a * 10 ^ (natToDecAux n []).length + n := by
  induction n using Nat.strong_induction_on with
  | _ n ih =>
    intro a
    by_cases h : n = 0
    · subst h
      rw [natToDecAux_zero]
      simp
    · have hlt : n / 10 < n := Nat.div_lt_self (Nat.pos_of_ne_zero h) (by omega)
      rw [natToDecAux_eq n [] h]
      rw [natToDecAux_append, List.foldl_append, List.length_append]
      rw [ih (n / 10) hlt a]
      simp only [List.foldl_cons, List.foldl_nil, List.length_cons, List.length_nil]
      rw [decStep, digitVal_decDigit (n % 10) (Nat.mod_lt n (by omega))]
      rw [pow_succ, ← mul_assoc]
      generalize a * 10 ^ (natToDecAux (n / 10) []).length = A
      omega

/-- pyIntCore on a nonempty all-digit list folds the digit values, whatever
the incoming flag. -/
theorem pyIntCore_digits : ∀ (cs : List Char) (a : Nat) (b : Bool),
    cs ≠ [] → (∀ c ∈ cs, c.isDigit = true) →
    pyIntCore cs a b = some (cs.foldl decStep a) := by
  intro cs
  induction cs with
  | nil =>
    intro a b hne
    exact absurd rfl hne
  | cons c rest ih =>
    intro a b hne hd
    have hc : c.isDigit = true := hd c (by simp)
    cases rest with
    | nil => simp [pyIntCore, hc, decStep]
    | cons c2 r2 =>
      have hrest : ∀ x ∈ c2 :: r2, x.isDigit = true := fun x hx => hd x (by simp [hx])
      have hstep : pyIntCore (c :: c2 :: r2) a b
          = pyIntCore (c2 :: r2) (a * 10 + digitVal c) true := by
        simp [pyIntCore, hc]
      rw [hstep, ih (a * 10 + digitVal c) true (by simp) hrest]
      simp [decStep]

/-- A graceful wait that timed out consumed exactly the window of probe
indices, and every poll inside the window reported the process alive. -/
theorem waitGraceful_timeout (probe : Nat → ProbeOutcome) :
    ∀ (fuel i : Nat), (waitGraceful probe i fuel).1 = false →
      (waitGraceful probe i fuel).2 = i + fuel ∧
      ∀ j, i ≤ j → j < i + fuel → is_process_running (probe j) = true := by
  intro fuel
  induction fuel with
  | zero =>
    intro i h
    exact ⟨rfl, fun j hj1 hj2 => absurd hj2 (by omega)⟩
  | succ k ih =>
    intro i h
    cases hp : is_process_running (probe i) with
    | false =>
      have hstep : waitGraceful probe i (k + 1) = (true, i + 1) := by
        simp [waitGraceful, hp]
      rw [hstep] at h
      simp at h
    | true =>
      have hstep : waitGraceful probe i (k + 1) = waitGraceful probe (i + 1) k := by
        simp [waitGraceful, hp]
      rw [hstep] at h
      obtain ⟨h1, h2⟩ := ih (i + 1) h
      constructor
      · rw [hstep, h1]
        omega
      · intro j hj1 hj2
        rcases Nat.eq_or_lt_of_le hj1 with rfl | hlt
        · exact hp
        · exact h2 j (by omega) (by omega)

/-! ### Claim theorems -/

/-- C1 (counterexample): the claim states that a liveness probe failing with
a permission error is interpreted as alive; in the code the except clause of
is_process_running catches every OSError, of which PermissionError is a
subclass, so a permission-denied probe yields False, and permission-denied is
not the no-such-process outcome the claim reserves for False. -/
theorem C1_counterexample :
    is_process_running ProbeOutcome.permissionDenied = false ∧
    ProbeOutcome.permissionDenied ≠ ProbeOutcome.noSuchProcess := by
  decide

/-- C1 (amended): is_process_running returns true exactly when the no-op
signal succeeds; every OSError outcome of the probe - no-such-process,
permission-denied, or any other - is reported as not alive. -/
theorem C1_alive_iff_probe_ok (o : ProbeOutcome) :
    is_process_running o = true ↔ o = ProbeOutcome.ok := by
  cases o <;> simp [is_process_running]

/-- C6: in the termination sequence, a pid probed as not alive at the
initial check receives no signal at all; SIGKILL is attempted only when
SIGTERM was delivered first and every poll of the full graceful window - and
the post-window check - still reported the process alive; and the sequence
reaches its return independently of the outcome of the SIGKILL attempt. -/
theorem C6_termination_order (env : TermEnv) (polls : Nat) :
    (is_process_running (env.probe 0) = false → (terminate_process env polls).2 = []) ∧
    (Event.sigkill ∈ (terminate_process env polls).2 →
      (terminate_process env polls).2 = [Event.sigterm, Event.sigkill] ∧
      env.sigterm = SigOutcome.delivered ∧
      ∀ j, 1 ≤ j → j ≤ polls + 1 → is_process_running (env.probe j) = true) ∧
    (∀ o : SigOutcome,
      terminate_process ⟨env.probe, env.sigterm, o⟩ polls = terminate_process env polls) := by
  refine ⟨?_, ?_, ?_⟩
  · intro h
    simp [terminate_process, h]
  · intro hmem
    cases h0 : is_process_running (env.probe 0) with
    | false => simp [terminate_process, h0] at hmem
    | true =>
      cases hst : env.sigterm with
      | noSuchProcess => simp [terminate_process, h0, hst] at hmem
      | permissionDenied => simp [terminate_process, h0, hst] at hmem
      | delivered =>
        cases hg : (waitGraceful env.probe 1 polls).1 with
        | true => simp [terminate_process, h0, hst, hg] at hmem
        | false =>
          cases hpw : is_process_running (env.probe (waitGraceful env.probe 1 polls).2) with
          | false => simp [terminate_process, h0, hst, hg, hpw] at hmem
          | true =>
            obtain ⟨hlen, hall⟩ := waitGraceful_timeout env.probe polls 1 hg
            refine ⟨by simp [terminate_process, h0, hst, hg, hpw], rfl, ?_⟩
            intro j hj1 hj2
            rcases Nat.lt_or_ge j (polls + 1) with hlt | hge
            · exact hall j hj1 (by omega)
            · have hj : j = polls + 1 := by omega
              subst hj
              rw [hlen] at hpw
              have heq : 1 + polls = polls + 1 := by omega
              rw [heq] at hpw
              exact hpw
  · intro o
    obtain ⟨pr, st, sk⟩ := env
    rfl

/-- C6 (witness): a process already gone at the initial probe receives no
signal. -/
theorem C6_witness :
    (terminate_process
        ⟨fun _ => ProbeOutcome.noSuchProcess, SigOutcome.delivered, SigOutcome.delivered⟩
        3).2 = [] :=
  (C6_termination_order
      ⟨fun _ => ProbeOutcome.noSuchProcess, SigOutcome.delivered, SigOutcome.delivered⟩ 3).1
    (by decide)

/-- C7: when no pid file exists for the session, the stop hook main returns
exit status 0, prints nothing, sends no signal, and leaves the modelled
filesystem footprint (pid file and worker log file) exactly as it was. -/
theorem C7_stop_without_record_is_noop (env : KillEnv) (payload : Option Payload)
    (w : KillWorld) (h : w.pidFile = none) :
    MgrepWatchKill.main env payload w = ⟨0, [], w, []⟩ := by
  unfold MgrepWatchKill.main
  rcases payload with _ | ⟨_ | sid, pcwd⟩
  · rfl
  · rfl
  · by_cases hs : sid = ""
    · simp [hs]
    · simp only [if_neg hs]
      rw [h]

/-- C8 (counterexample): the claim states that every invocation with a
missing payload returns a nonzero exit status; the stop hook main instead
returns exit status 0 on a missing payload. -/
theorem C8_counterexample :
    (MgrepWatchKill.main
        ⟨true, ⟨fun _ => ProbeOutcome.ok, SigOutcome.delivered, SigOutcome.delivered⟩,
          3, true, true⟩
        none ⟨none, false⟩).exitCode = 0 := by
  decide

/-- C8 (amended): on a malformed payload or a missing or empty session
identifier, the start hook prints an error object and returns exit status 1
with the modelled filesystem footprint untouched, while the stop hook returns
exit status 0, prints nothing and also leaves the footprint untouched. -/
theorem C8_input_error_behavior :
    (∀ (env : StartEnv) (w : StartWorld),
        MgrepWatch.main env none w = ⟨1, StartOut.errNoPayload, w⟩) ∧
    (∀ (env : StartEnv) (w : StartWorld) (cwd : Option String),
        MgrepWatch.main env (some ⟨none, cwd⟩) w = ⟨1, StartOut.errNoSession, w⟩) ∧
    (∀ (env : StartEnv) (w : StartWorld) (cwd : Option String),
        MgrepWatch.main env (some ⟨some "", cwd⟩) w = ⟨1, StartOut.errNoSession, w⟩) ∧
    (∀ (env : KillEnv) (w : KillWorld),
        MgrepWatchKill.main env none w = ⟨0, [], w, []⟩) ∧
    (∀ (env : KillEnv) (w : KillWorld) (cwd : Option String),
        MgrepWatchKill.main env (some ⟨none, cwd⟩) w = ⟨0, [], w, []⟩) ∧
    (∀ (env : KillEnv) (w : KillWorld) (cwd : Option String),
        MgrepWatchKill.main env (some ⟨some "", cwd⟩) w = ⟨0, [], w, []⟩) := by
  refine ⟨fun env w => rfl, fun env w cwd => rfl, fun env w cwd => ?_,
    fun env w => rfl, fun env w cwd => rfl, fun env w cwd => ?_⟩
  · simp [MgrepWatch.main]
  · simp [MgrepWatchKill.main]

/-- C2 (counterexample): for the corrupt record "abc" the stale record is
deleted and the single retry creation fails; the claim states acquire then
returns an Error surfaced to the caller, but acquire_pid_file returns None
and the start hook main reports the informational already-running advisory
with exit status 0. -/
theorem C2_counterexample :
    acquire_pid_file ⟨true, true, true, true, false⟩ (fun _ => ProbeOutcome.ok) (some "abc")
        = (AcquireOut.noAcquire, none) ∧
    MgrepWatch.main
        ⟨⟨true, true, true, true, false⟩, fun _ => ProbeOutcome.ok, true, true, true, 42, true⟩
        (some ⟨some "s", none⟩) ⟨some "abc", false⟩
      = ⟨0, StartOut.alreadyRunning, ⟨none, false⟩⟩ := by
  decide

/-- C2 (amended): acquire deletes a stale or corrupt record and retries the
exclusive creation exactly once; when that single retry fails,
acquire_pid_file returns None - the same value as the already-running case -
and the start hook main surfaces every None as the informational
already-running advisory with exit status 0; no Error result reaches the
caller.  In the stale path no further creation is ever attempted after the
failed retry: the except handler it falls into starts with os.remove on the
already-removed file, which raises FileNotFoundError, so acquire returns
None with the file left absent, whatever the handler call outcomes would
have been. -/
theorem C2_retry_failure_reports_already_running :
    (∀ (fsenv : FsEnv) (probe : Int → ProbeOutcome) (content : String),
        readPidStr content = none → fsenv.create3Ok = false →
        (acquire_pid_file fsenv probe (some content)).1 = AcquireOut.noAcquire) ∧
    (∀ (fsenv : FsEnv) (probe : Int → ProbeOutcome) (content : String) (pid : Int),
        fsenv.readOk = true → readPidStr content = some pid →
        is_process_running (probe pid) = false →
        fsenv.remove1Ok = true → fsenv.create2Ok = false →
        acquire_pid_file fsenv probe (some content) = (AcquireOut.noAcquire, none)) ∧
    (∀ (env : StartEnv) (sid : String) (pcwd : Option String) (w : StartWorld),
        sid ≠ "" →
        (acquire_pid_file env.fs env.probe w.pidFile).1 = AcquireOut.noAcquire →
        (MgrepWatch.main env (some ⟨some sid, pcwd⟩) w).exitCode = 0 ∧
        (MgrepWatch.main env (some ⟨some sid, pcwd⟩) w).output = StartOut.alreadyRunning) := by
  refine ⟨?_, ?_, ?_⟩
  · intro fsenv probe content h h3
    obtain ⟨ro, r1, c2, r2, c3⟩ := fsenv
    simp only at h3
    subst h3
    cases ro <;> cases r2 <;> simp [acquire_pid_file, invalidHandler, h]
  · intro fsenv probe content pid hro hp halive hr1 h2
    obtain ⟨ro, r1, c2, r2, c3⟩ := fsenv
    simp only at hro hr1 h2
    subst hro
    subst hr1
    subst h2
    cases r2 <;> cases c3 <;>
      simp [acquire_pid_file, invalidHandler, hp, halive]
  · intro env sid pcwd w hne hacq
    simp only [MgrepWatch.main, if_neg hne]
    have ha : acquire_pid_file env.fs env.probe w.pidFile =
        (AcquireOut.noAcquire, (acquire_pid_file env.fs env.probe w.pidFile).2) := by
      rw [← hacq]
    rw [ha]
    exact ⟨rfl, rfl⟩

/-- C2 (witness): the corrupt record "abc" with a failing retry creation
makes acquire_pid_file return None. -/
theorem C2_witness :
    (acquire_pid_file ⟨true, true, true, true, false⟩ (fun _ => ProbeOutcome.ok)
        (some "abc")).1 = AcquireOut.noAcquire :=
  C2_retry_failure_reports_already_running.1 ⟨true, true, true, true, false⟩
    (fun _ => ProbeOutcome.ok) "abc" (by decide) rfl

/-- C3: for a valid session identifier, after any stop invocation in which
the os.remove of the pid file itself succeeds, no pid file remains -
whatever the worker liveness, pid validity, or termination outcome was. -/
theorem C3_stop_removes_lock (env : KillEnv) (sid : String) (pcwd : Option String)
    (w : KillWorld) (hne : sid ≠ "") (hrm : env.removePidOk = true) :
    (MgrepWatchKill.main env (some ⟨some sid, pcwd⟩) w).world.pidFile = none := by
  obtain ⟨pf, lf⟩ := w
  cases pf with
  | none => simp [MgrepWatchKill.main, if_neg hne]
  | some content =>
    simp only [MgrepWatchKill.main, if_neg hne]
    split <;> simp [cleanup_pid_file, hrm]

/-- C3 (witness): a stop invocation over a live worker leaves no pid file. -/
theorem C3_witness :
    (MgrepWatchKill.main
        ⟨true, ⟨fun _ => ProbeOutcome.ok, SigOutcome.delivered, SigOutcome.delivered⟩,
          2, true, true⟩
        (some ⟨some "s", none⟩) ⟨some "7", true⟩).world.pidFile = none :=
  C3_stop_removes_lock _ "s" none _ (by decide) rfl

/-- C4: when the lock was acquired but opening the log sink or spawning the
worker raises, the start hook main returns exit status 1 with the
spawn-failure error object, and - the cleanup os.remove succeeding - no pid
file remains on the modelled filesystem. -/
theorem C4_spawn_failure_rolls_back (env : StartEnv) (sid : String) (pcwd : Option String)
    (w : StartWorld) (hne : sid ≠ "")
    (hacq : (acquire_pid_file env.fs env.probe w.pidFile).1 = AcquireOut.fd)
    (hfail : env.logOpenOk = false ∨ env.spawnOk = false)
    (hrm : env.cleanupRemoveOk = true) :
    (MgrepWatch.main env (some ⟨some sid, pcwd⟩) w).exitCode = 1 ∧
    (MgrepWatch.main env (some ⟨some sid, pcwd⟩) w).output = StartOut.errSpawn ∧
    (MgrepWatch.main env (some ⟨some sid, pcwd⟩) w).world.pidFile = none := by
  simp only [MgrepWatch.main, if_neg hne]
  have ha : acquire_pid_file env.fs env.probe w.pidFile =
      (AcquireOut.fd, (acquire_pid_file env.fs env.probe w.pidFile).2) := by
    rw [← hacq]
  rw [ha]
  rcases hfail with h | h
  · simp [h, hrm, cleanup_pid_file_true]
  · by_cases hlo : env.logOpenOk = false
    · simp [hlo, hrm, cleanup_pid_file_true]
    · simp [hlo, h, hrm, cleanup_pid_file_true]

/-- C4 (witness): a start invocation whose spawn raises returns 1 with the
spawn-failure error and leaves no pid file. -/
theorem C4_witness :
    (MgrepWatch.main
        ⟨⟨true, true, true, true, true⟩, fun _ => ProbeOutcome.ok, true, false, true, 42, true⟩
        (some ⟨some "s", none⟩) ⟨none, false⟩).exitCode = 1 ∧
    (MgrepWatch.main
        ⟨⟨true, true, true, true, true⟩, fun _ => ProbeOutcome.ok, true, false, true, 42, true⟩
        (some ⟨some "s", none⟩) ⟨none, false⟩).output = StartOut.errSpawn ∧
    (MgrepWatch.main
        ⟨⟨true, true, true, true, true⟩, fun _ => ProbeOutcome.ok, true, false, true, 42, true⟩
        (some ⟨some "s", none⟩) ⟨none, false⟩).world.pidFile = none :=
  C4_spawn_failure_rolls_back _ "s" none _ (by decide) rfl (Or.inr rfl) rfl

/-- C5 (counterexample): the claim treats a zero or negative pid field as
corrupt; int() parses "0" and "-5" successfully.  For the record "0" the
probe os.kill(0, 0) addresses the process group of the hook itself and
succeeds, so acquire_pid_file returns None as for a live owner instead of
reclaiming the record.  For the record "-5" - naming process group 5, a
group other than that of the hook - the stop hook runs the termination
sequence against that group, attempting SIGTERM and then SIGKILL, rather
than deleting the record without any signal. -/
theorem C5_counterexample :
    readPidStr "0" = some 0 ∧
    readPidStr "-5" = some (-5) ∧
    acquire_pid_file ⟨true, true, true, true, true⟩ (fun _ => ProbeOutcome.ok) (some "0")
        = (AcquireOut.noAcquire, some "0") ∧
    (MgrepWatchKill.main
        ⟨true, ⟨fun _ => ProbeOutcome.ok, SigOutcome.delivered, SigOutcome.delivered⟩,
          0, true, true⟩
        (some ⟨some "s", none⟩) ⟨some "-5", true⟩).events
      = [Event.sigterm, Event.sigkill] := by
  decide

/-- C5 (amended): exactly the records whose pid field fails int() parsing
(empty, non-numeric, malformed) are treated as corrupt: acquire_pid_file
reclaims such a record (deleting and recreating it, those calls succeeding),
and the stop hook deletes it and returns 0 without attempting any signal.
Zero or negative values parse successfully and are handled as ordinary
pids. -/
theorem C5_unparseable_record_is_corrupt (content : String)
    (h : readPidStr content = none)
    (fsenv : FsEnv) (hr2 : fsenv.remove2Ok = true) (hc3 : fsenv.create3Ok = true)
    (probe : Int → ProbeOutcome)
    (kenv : KillEnv) (hk : kenv.removePidOk = true)
    (sid : String) (pcwd : Option String) (hne : sid ≠ "")
    (lf : Bool) :
    acquire_pid_file fsenv probe (some content) = (AcquireOut.fd, some "") ∧
    (MgrepWatchKill.main kenv (some ⟨some sid, pcwd⟩) ⟨some content, lf⟩).exitCode = 0 ∧
    (MgrepWatchKill.main kenv (some ⟨some sid, pcwd⟩) ⟨some content, lf⟩).events = [] ∧
    (MgrepWatchKill.main kenv (some ⟨some sid, pcwd⟩)
        ⟨some content, lf⟩).world.pidFile = none := by
  have hkill : MgrepWatchKill.main kenv (some ⟨some sid, pcwd⟩) ⟨some content, lf⟩
      = ⟨0, [], ⟨cleanup_pid_file kenv.removePidOk (some content), lf⟩, []⟩ := by
    simp only [MgrepWatchKill.main, if_neg hne]
    cases hko : kenv.readOk <;> simp [h]
  refine ⟨?_, ?_, ?_, ?_⟩
  · obtain ⟨ro, r1, c2, r2, c3⟩ := fsenv
    simp only at hr2 hc3
    subst hr2
    subst hc3
    cases ro <;> simp [acquire_pid_file, invalidHandler, h]
  · rw [hkill]
  · rw [hkill]
  · rw [hkill]
    simp [cleanup_pid_file, hk]

/-- C5 (witness): the non-numeric record "abc" is reclaimed by acquire and
silently deleted by stop. -/
theorem C5_witness :
    acquire_pid_file ⟨true, true, true, true, true⟩ (fun _ => ProbeOutcome.ok) (some "abc")
        = (AcquireOut.fd, some "") ∧
    (MgrepWatchKill.main
        ⟨true, ⟨fun _ => ProbeOutcome.ok, SigOutcome.delivered, SigOutcome.delivered⟩,
          2, true, true⟩
        (some ⟨some "s", none⟩) ⟨some "abc", true⟩).exitCode = 0 ∧
    (MgrepWatchKill.main
        ⟨true, ⟨fun _ => ProbeOutcome.ok, SigOutcome.delivered, SigOutcome.delivered⟩,
          2, true, true⟩
        (some ⟨some "s", none⟩) ⟨some "abc", true⟩).events = [] ∧
    (MgrepWatchKill.main
        ⟨true, ⟨fun _ => ProbeOutcome.ok, SigOutcome.delivered, SigOutcome.delivered⟩,
          2, true, true⟩
        (some ⟨some "s", none⟩) ⟨some "abc", true⟩).world.pidFile = none :=
  C5_unparseable_record_is_corrupt "abc" (by decide) _ rfl rfl
    (fun _ => ProbeOutcome.ok) _ rfl "s" none (by decide) true

/-- C7 (witness): stopping a session with no pid file changes nothing. -/
theorem C7_witness :
    MgrepWatchKill.main
        ⟨true, ⟨fun _ => ProbeOutcome.ok, SigOutcome.delivered, SigOutcome.delivered⟩,
          3, true, true⟩
        (some ⟨some "s", none⟩) ⟨none, true⟩ = ⟨0, [], ⟨none, true⟩, []⟩ :=
  C7_stop_without_record_is_noop _ _ _ rfl

/-- C9: the pid written by the start hook - str(pid), no trailing newline -
is recovered exactly by the stop-side read-strip-parse of the pid file: for
every natural pid, parsing the decimal string yields that pid back. -/
theorem C9_write_read_identity (n : Nat) :
    readPidStr (pyStrOfNat n) = some (Int.ofNat n) := by
  by_cases h0 : n = 0
  · subst h0
    decide
  · have hmem : ∀ c ∈ natToDec n, ∃ d, d < 10 ∧ c = decDigit d := by
      intro c hc
      rw [natToDec, if_neg h0] at hc
      rcases natToDecAux_mem n [] c hc with h1 | h2
      · simp at h1
      · exact h2
    have hdig : ∀ c ∈ natToDec n, c.isDigit = true := by
      intro c hc
      obtain ⟨d, _, rfl⟩ := hmem c hc
      exact decDigit_isDigit d
    have hsp : ∀ c ∈ natToDec n, isPySpace c = false := by
      intro c hc
      obtain ⟨d, _, rfl⟩ := hmem c hc
      exact decDigit_not_space d
    have hne : natToDec n ≠ [] := by
      rw [natToDec, if_neg h0]
      exact natToDecAux_ne_nil n h0
    unfold readPidStr pyStrip pyParseInt pyStrOfNat
    simp only [data_mk]
    rw [trimChars_of_no_space _ hsp, trimChars_of_no_space _ hsp]
    cases hcs : natToDec n with
    | nil => exact absurd hcs hne
    | cons c rest =>
      have hc : ∃ d, d < 10 ∧ c = decDigit d := hmem c (by rw [hcs]; simp)
      obtain ⟨d, _, rfl⟩ := hc
      show (if decDigit d = '+' then Option.map Int.ofNat (pyIntCore rest 0 false)
          else if decDigit d = '-' then
            Option.map (fun m => -Int.ofNat m) (pyIntCore rest 0 false)
          else Option.map Int.ofNat (pyIntCore (decDigit d :: rest) 0 false))
        = some (Int.ofNat n)
      rw [if_neg (decDigit_ne_plus d), if_neg (decDigit_ne_dash d)]
      rw [pyIntCore_digits (decDigit d :: rest) 0 false (by simp)
            (fun x hx => hdig x (by rw [hcs]; exact hx))]
      rw [← hcs]
      have haux : natToDec n = natToDecAux n [] := by rw [natToDec, if_neg h0]
      rw [haux, foldl_natToDecAux n 0]
      simp

/-- C10: for every input and every environment - missing payload, missing
session identifier, missing pid file, corrupt pid, failed or timed-out
termination - the stop hook main returns exit status 0 and writes nothing to
standard output. -/
theorem C10_stop_exit_zero_and_silent (env : KillEnv) (payload : Option Payload)
    (w : KillWorld) :
    (MgrepWatchKill.main env payload w).exitCode = 0 ∧
    (MgrepWatchKill.main env payload w).stdout = [] := by
  unfold MgrepWatchKill.main
  rcases payload with _ | ⟨_ | sid, pcwd⟩
  · exact ⟨rfl, rfl⟩
  · exact ⟨rfl, rfl⟩
  · by_cases hs : sid = ""
    · simp [hs]
    · simp only [if_neg hs]
      refine ⟨?_, ?_⟩ <;>
      · split
        · rfl
        · split <;> rfl

end Mgrep
